import Mathlib

/-!
Verification development for the Fitness-AI-agent core:
a shallow embedding of `app/flags/risk_flags.py` (risk rule engine) and
`app/metrics/compute_metrics.py` (metrics aggregator), with theorems that
settle the specification claims about them.

Modelling conventions:
* Python floats are modelled as rationals (`ℚ`).
* Python dynamic values (dict entries) are the inductive `Value`;
  the Python object `None` is `Value.none`.
* A Python function that can raise is modelled with `Option` (`Option.none`
  is an uncaught exception propagating to the caller).
* `sorted(...)` is modelled by `List.insertionSort`, a stable sort, hence
  observably identical to Python's stable `sorted`; Python's string order
  (code-point lexicographic) is the boolean `strLeB`.
* Naive datetimes are integer second counts (the Unix epoch is a Thursday,
  so the Python `weekday()` of a timestamp `t` is `(t / 86400 + 3) % 7`).
-/

namespace FitnessAI

/-- Dynamic (Python-like) value stored in a metrics mapping. -/
inductive Value : Type where
  | none : Value
  | bool : Bool → Value
  | int : ℤ → Value
  | float : ℚ → Value
  | str : String → Value
  | list : List Value → Value

/-- The `expected_type` arguments that `_get` is called with:
`(int, float)`, `int`, and `list`. -/
inductive PyType : Type where
  | tIntFloat : PyType
  | tInt : PyType
  | tList : PyType
deriving DecidableEq

/-- Python `isinstance` for the types used by `_get`
(`bool` is a subclass of `int` in Python). -/
def isinstanceB : Value → PyType → Bool
  | .bool _, .tIntFloat => true
  | .int _, .tIntFloat => true
  | .float _, .tIntFloat => true
  | .bool _, .tInt => true
  | .int _, .tInt => true
  | .list _, .tList => true
  | _, _ => false

/-- Is this value the Python object `None`? -/
def pyIsNone : Value → Bool
  | .none => true
  | _ => false

/-- Python truthiness of a value. -/
def pyTruthy : Value → Bool
  | .none => false
  | .bool b => b
  | .int n => n != 0
  | .float q => q != 0
  | .str s => s != ""
  | .list l => !l.isEmpty

/-- Numeric content of an `int`/`float`/`bool` value (Python `True == 1`). -/
def numVal : Value → ℚ
  | .bool b => if b then 1 else 0
  | .int n => (n : ℚ)
  | .float q => q
  | _ => 0

/-- Value of a string of decimal digits. -/
def digitsToNat (cs : List Char) : ℕ :=
  cs.foldl (fun a c => a * 10 + (c.toNat - 48)) 0

/-- Python `float(s)` on a string: an optional sign followed by
`digits`, `digits.digits`, `digits.` or `.digits`; anything else raises
(`Option.none`).  Exotic spellings (whitespace padding, exponents,
`inf`/`nan`, underscores) are not modelled and rejected. -/
def parsePyFloat (s : String) : Option ℚ :=
  let cs := s.toList
  let sgn : ℚ × List Char :=
    match cs with
    | '-' :: r => (-1, r)
    | '+' :: r => (1, r)
    | r => (1, r)
  let intPart := sgn.2.takeWhile (fun c => c ≠ '.')
  let rest := sgn.2.dropWhile (fun c => c ≠ '.')
  if intPart.all Char.isDigit then
    match rest with
    | [] =>
      if intPart.isEmpty then Option.none
      else some (sgn.1 * (digitsToNat intPart : ℚ))
    | _ :: frac =>
      if frac.all Char.isDigit && (!intPart.isEmpty || !frac.isEmpty) then
        some (sgn.1 * ((digitsToNat intPart : ℚ)
          + (digitsToNat frac : ℚ) / (10 ^ frac.length : ℚ)))
      else Option.none
  else Option.none

/-- Python builtin `float(x)`; `Option.none` models a raised
`TypeError`/`ValueError`. -/
def pyFloat : Value → Option ℚ
  | .bool b => some (if b then 1 else 0)
  | .int n => some (n : ℚ)
  | .float q => some q
  | .str s => parsePyFloat s
  | _ => Option.none

/-- `pyFloat` with a junk default, used to phrase theorems about values
already known to convert. -/
def pyFloatD (v : Value) : ℚ := (pyFloat v).getD 0

/-- A value is an actual number (`int` or `float`). -/
def isNum : Value → Bool
  | .int _ => true
  | .float _ => true
  | _ => false

/-- A metrics mapping: a Python `dict` with string keys. -/
abbrev PyDict := List (String × Value)

/-- Dictionary lookup (keys of a Python dict are unique; first match). -/
def dictLookup (m : PyDict) (k : String) : Option Value :=
  (m.find? (fun p => p.1 == k)).map Prod.snd

/-- `_get` from `risk_flags.py` (lines 14-26): safe getter with optional
soft type check.  Its Python return value `None` is rendered as
`Value.none`. -/
def _get (metrics : PyDict) (key : String) (expected : Option PyType) : Value :=
  match dictLookup metrics key with
  | Option.none => Value.none
  | some val =>
    match expected with
    | Option.none => val
    | some t => if isinstanceB val t then val else Value.none

/-- Python negative indexing `l[-k]` (only used under length guards that
make the default unreachable). -/
def pyNegGet (l : List α) (k : ℕ) (d : α) : α :=
  (l.get? (l.length - k)).getD d

/-- `_trend_is_flat_or_decreasing` from `risk_flags.py` (lines 29-40). -/
def _trend_is_flat_or_decreasing (weekly_distance : List ℚ) : Bool :=
  if weekly_distance.length < 2 then true
  else if weekly_distance.length = 2 then
    pyNegGet weekly_distance 1 0 ≤ pyNegGet weekly_distance 2 0
  else
    pyNegGet weekly_distance 1 0 ≤
      (pyNegGet weekly_distance 2 0 + pyNegGet weekly_distance 3 0) / 2

/-- Output entity of the rule engine (`RiskAssessment` dataclass). -/
structure RiskAssessment : Type where
  risk_level : String
  risk_flags : List String
  limitations : List String
  flag_details : List (String × String)
deriving DecidableEq

/-- Code-point comparison of character lists (Python string `<=`). -/
def charListLe : List Char → List Char → Bool
  | [], _ => true
  | _ :: _, [] => false
  | c :: cs, d :: ds =>
    (c.toNat < d.toNat) || (c.toNat == d.toNat && charListLe cs ds)

/-- Python's lexicographic (code-point) order on strings. -/
def strLeB (a b : String) : Bool := charListLe a.toList b.toList

/-- `strLeB` as a relation. -/
def strLeP (a b : String) : Prop := strLeB a b = true

instance : DecidableRel strLeP :=
  fun a b => inferInstanceAs (Decidable (strLeB a b = true))

/-- Python `sorted` on a list of strings: a stable sort in the
code-point order. -/
def pySortedStr (l : List String) : List String :=
  l.insertionSort strLeP

/-- Rule block A (`volume_spike`, lines 72-96).  Returns the flags,
limitations and flag-detail entries the block appends. -/
def ruleVolumeSpike (acwr weekly_distance : Value) :
    List String × List String × List (String × String) :=
  if pyIsNone acwr && !pyTruthy weekly_distance then
    ([], ["Missing acwr and weekly_distance; cannot assess volume spikes reliably."], [])
  else
    let t1 := isinstanceB acwr .tIntFloat && decide ((1.5 : ℚ) ≤ numVal acwr)
    let step : Bool × List String :=
      match weekly_distance with
      | .list l =>
        if 2 ≤ l.length then
          match pyFloat (pyNegGet l 1 Value.none), pyFloat (pyNegGet l 2 Value.none) with
          | some last_wk, some prev_wk =>
            (t1 || decide ((0 : ℚ) < prev_wk ∧ (1.25 : ℚ) * prev_wk ≤ last_wk), [])
          | _, _ => (t1, ["weekly_distance values invalid; spike check skipped."])
        else (t1, [])
      | _ => (t1, [])
    if step.1 then
      (["volume_spike"], step.2,
        [("volume_spike",
          "Training volume increased sharply relative to your recent baseline. Sudden spikes elevate short-term injury and fatigue risk.")])
    else ([], step.2, [])

/-- Elementwise `float(...)` over a list (the comprehension
`[float(x) for x in weekly_distance]`), raising — `Option.none` — as soon
as one element fails to convert. -/
def pyFloatList : List Value → Option (List ℚ)
  | [] => some []
  | x :: xs =>
    match pyFloat x, pyFloatList xs with
    | some q, some qs => some (q :: qs)
    | _, _ => Option.none

/-- Rule block B (`undertraining`, lines 98-107).  The list comprehension
`[float(x) for x in weekly_distance]` is not guarded by `try`, so a
conversion failure is an uncaught exception: result `Option.none`. -/
def ruleUndertraining (acwr weekly_distance : Value) :
    Option (List String × List String × List (String × String)) :=
  match weekly_distance with
  | .list l =>
    if pyIsNone acwr || l.length < 2 then
      some ([], ["Missing acwr or sufficient weekly_distance; undertraining check may be incomplete."], [])
    else if numVal acwr < (0.8 : ℚ) then
      match pyFloatList l with
      | some fl =>
        if _trend_is_flat_or_decreasing fl then
          some (["undertraining"], [],
            [("undertraining",
              "Recent training load is below your longer-term baseline and appears flat or declining. This can reduce fitness and make harder efforts feel disproportionately taxing.")])
        else some ([], [], [])
      | Option.none => Option.none
    else some ([], [], [])
  | _ =>
    some ([], ["Missing acwr or sufficient weekly_distance; undertraining check may be incomplete."], [])

/-- Rule block C (`long_run_dominance`, lines 109-122). -/
def ruleLongRunDominance (longest_run_pct : Value) :
    List String × List String × List (String × String) :=
  if pyIsNone longest_run_pct then
    ([], ["Missing longest_run_pct; cannot assess long-run dominance."], [])
  else
    match pyFloat longest_run_pct with
    | some lr =>
      if (0.40 : ℚ) ≤ lr then
        (["long_run_dominance"], [],
          [("long_run_dominance",
            "A large share of your weekly volume is concentrated in one run. When the long run dominates the week, connective tissues often have less time to adapt.")])
      else ([], [], [])
    | Option.none =>
      ([], ["longest_run_pct invalid; long-run dominance check skipped."], [])

/-- Rule block D (`insufficient_easy_running`, lines 124-137). -/
def ruleInsufficientEasyRunning (easy_pct : Value) :
    List String × List String × List (String × String) :=
  if pyIsNone easy_pct then
    ([], ["Missing easy_pct; cannot assess easy-running balance."], [])
  else
    match pyFloat easy_pct with
    | some ep =>
      if ep < (65.0 : ℚ) then
        (["insufficient_easy_running"], [],
          [("insufficient_easy_running",
            "A relatively low portion of your running is truly easy. Too much moderate/hard running can accumulate fatigue and limit recovery between sessions.")])
      else ([], [], [])
    | Option.none =>
      ([], ["easy_pct invalid; easy-running balance check skipped."], [])

/-- Rule block E (`excessive_hard_running`, lines 139-152). -/
def ruleExcessiveHardRunning (hard_pct : Value) :
    List String × List String × List (String × String) :=
  if pyIsNone hard_pct then
    ([], ["Missing hard_pct; cannot assess hard-running proportion."], [])
  else
    match pyFloat hard_pct with
    | some hp =>
      if (20.0 : ℚ) ≤ hp then
        (["excessive_hard_running"], [],
          [("excessive_hard_running",
            "A relatively high portion of your mileage is hard intensity. Sustained high-intensity volume is effective but increases recovery demand and injury risk.")])
      else ([], [], [])
    | Option.none =>
      ([], ["hard_pct invalid; hard-running proportion check skipped."], [])

/-- Rule block F (`insufficient_recovery`, lines 154-169). -/
def ruleInsufficientRecovery (rest_days_last_14 b2b_runs_last_14 : Value) :
    List String × List String × List (String × String) :=
  if pyIsNone rest_days_last_14 && pyIsNone b2b_runs_last_14 then
    ([], ["Missing rest_days_last_14 and back_to_back_runs_last_14; cannot assess recovery density."], [])
  else
    let t := (isinstanceB rest_days_last_14 .tInt && decide (numVal rest_days_last_14 ≤ (1 : ℚ)))
      || (isinstanceB b2b_runs_last_14 .tInt && decide ((5 : ℚ) ≤ numVal b2b_runs_last_14))
    if t then
      (["insufficient_recovery"], [],
        [("insufficient_recovery",
          "Recent training has limited recovery spacing (few rest days and/or frequent back-to-back runs). Insufficient recovery increases fatigue and can make small issues linger into injuries.")])
    else ([], [], [])

/-- Severity aggregation and output assembly (lines 171-188). -/
def finalize (flags limitations : List String)
    (details : List (String × String)) : RiskAssessment :=
  let risk_level :=
    if 4 ≤ flags.length ∨ ("volume_spike" ∈ flags ∧ "insufficient_recovery" ∈ flags) then
      "high"
    else if 2 ≤ flags.length then "moderate"
    else "low"
  ⟨risk_level, pySortedStr flags, pySortedStr limitations.dedup, details⟩

/-- `evaluate_risk_flags` from `risk_flags.py` (lines 43-188).
`Option.none` models an uncaught exception. -/
def evaluate_risk_flags (metrics : PyDict) : Option RiskAssessment :=
  let acwr := _get metrics "acwr" (some .tIntFloat)
  let weekly_distance := _get metrics "weekly_distance" (some .tList)
  let longest_run_pct := _get metrics "longest_run_pct" (some .tIntFloat)
  let easy_pct := _get metrics "easy_pct" (some .tIntFloat)
  let hard_pct := _get metrics "hard_pct" (some .tIntFloat)
  let rest_days_last_14 := _get metrics "rest_days_last_14" (some .tInt)
  let b2b_runs_last_14 := _get metrics "back_to_back_runs_last_14" (some .tInt)
  let rA := ruleVolumeSpike acwr weekly_distance
  match ruleUndertraining acwr weekly_distance with
  | Option.none => Option.none
  | some rB =>
    let rC := ruleLongRunDominance longest_run_pct
    let rD := ruleInsufficientEasyRunning easy_pct
    let rE := ruleExcessiveHardRunning hard_pct
    let rF := ruleInsufficientRecovery rest_days_last_14 b2b_runs_last_14
    let flags := rA.1 ++ rB.1 ++ rC.1 ++ rD.1 ++ rE.1 ++ rF.1
    let limitations := rA.2.1 ++ rB.2.1 ++ rC.2.1 ++ rD.2.1 ++ rE.2.1 ++ rF.2.1
    let details := rA.2.2 ++ rB.2.2 ++ rC.2.2 ++ rD.2.2 ++ rE.2.2 ++ rF.2.2
    some (finalize flags limitations details)

/-- `Run` from `app/io/models.py`: one completed activity.
`start_time` is a naive timestamp in seconds. -/
structure Run : Type where
  start_time : ℤ
  distance_m : ℚ
  duration_s : ℚ
  avg_hr : Option ℚ
deriving DecidableEq

/-- `Run.pace_s_per_km` (models.py lines 14-20).  Python returns `+inf`
when the distance is non-positive; `ℚ` has no infinity, so that branch
returns `0` — it is unreachable wherever the pace is consumed, because the
aggregator reads paces only for runs with positive distance. -/
def Run.pace_s_per_km (r : Run) : ℚ :=
  let km := r.distance_m / 1000
  if km ≤ 0 then 0 else r.duration_s / km

/-- Python `round` to an integer: round half to even. -/
def pyRound (q : ℚ) : ℤ :=
  let f := Rat.floor q
  if q - (f : ℚ) < 1 / 2 then f
  else if (1 : ℚ) / 2 < q - (f : ℚ) then f + 1
  else if f % 2 = 0 then f else f + 1

/-- Python `round(x, 2)`. -/
def pyRound2 (q : ℚ) : ℚ := ((pyRound (q * 100) : ℚ)) / 100

/-- Python `round(x, 1)`. -/
def pyRound1 (q : ℚ) : ℚ := ((pyRound (q * 10) : ℚ)) / 10

/-- Calendar day of a timestamp (its `date()`). -/
def dateOf (t : ℤ) : ℤ := Int.fdiv t 86400

/-- `_week_start` from `compute_metrics.py` (lines 6-8): midnight of the
Monday of the timestamp's week.  Day 0 (the Unix epoch) is a Thursday,
so `weekday() = (day + 3) % 7`. -/
def _week_start (t : ℤ) : ℤ :=
  (dateOf t - (dateOf t + 3) % 7) * 86400

/-- `_filter_lookback` (lines 10-14). -/
def _filter_lookback (runs : List Run) (days : ℤ) : List Run :=
  match runs.getLast? with
  | Option.none => []
  | some lastR =>
    runs.filter (fun r => lastR.start_time - days * 86400 ≤ r.start_time)

/-- One `dict` accumulation step of `_weekly_buckets`. -/
def bucketAdd : List (ℤ × ℚ × ℕ) → ℤ → ℚ → List (ℤ × ℚ × ℕ)
  | [], ws, d => [(ws, d, 1)]
  | (w, dm, c) :: rest, ws, d =>
    if w = ws then (w, dm + d, c + 1) :: rest
    else (w, dm, c) :: bucketAdd rest ws d

/-- `_weekly_buckets` (lines 16-31): `(week_start, total_distance_m,
run_count)` sorted ascending by week start. -/
def _weekly_buckets (runs : List Run) : List (ℤ × ℚ × ℕ) :=
  (runs.foldl (fun b r => bucketAdd b (_week_start r.start_time) r.distance_m) []).insertionSort
    (fun a b => a.1 ≤ b.1)

/-- `_count_rest_days_last_14` (lines 33-40). -/
def _count_rest_days_last_14 (runs : List Run) : ℤ :=
  match runs.getLast? with
  | Option.none => 14
  | some lastR =>
    let last_day := dateOf lastR.start_time
    let days_with_run :=
      ((runs.filter (fun r => last_day - dateOf r.start_time ≤ 13)).map
        (fun r => dateOf r.start_time)).dedup
    14 - (days_with_run.length : ℤ)

/-- Adjacent-day pairs with difference exactly one day. -/
def countAdjacent : List ℤ → ℕ
  | d1 :: d2 :: rest => (if d2 - d1 = 1 then 1 else 0) + countAdjacent (d2 :: rest)
  | _ => 0

/-- `_count_back_to_back_runs_last_14` (lines 42-51). -/
def _count_back_to_back_runs_last_14 (runs : List Run) : ℕ :=
  match runs.getLast? with
  | Option.none => 0
  | some lastR =>
    let last_day := dateOf lastR.start_time
    let days :=
      (((runs.filter (fun r => last_day - dateOf r.start_time ≤ 13)).map
        (fun r => dateOf r.start_time)).dedup).insertionSort (fun a b => a ≤ b)
    countAdjacent days

/-- Result of the intensity split (the dict with keys
`easy_pct`, `hard_pct`). -/
structure IntensitySplit : Type where
  easy_pct : ℚ
  hard_pct : ℚ
deriving DecidableEq

/-- `pct_value` (lines 70-72): clamped nearest-rank percentile index. -/
def pct_value (vals : List ℚ) (pct : ℚ) : ℚ :=
  let idx : ℤ := max 0 (min ((vals.length : ℤ) - 1) (pyRound (((vals.length : ℤ) - 1) * pct)))
  (vals.get? idx.toNat).getD 0

/-- The eligible `(pace, distance)` pairs of the intensity split
(line 63): runs with positive distance. -/
def pace_runs_of (runs : List Run) : List (ℚ × ℚ) :=
  (runs.filter (fun r => 0 < r.distance_m)).map (fun r => (r.pace_s_per_km, r.distance_m))

/-- The accumulation loop of `_intensity_split_by_pace` (lines 77-83),
returning `(hard_m, easy_m, total_m)`. -/
def splitSums (pace_runs : List (ℚ × ℚ)) (hard_cut easy_cut : ℚ) : ℚ × ℚ × ℚ :=
  pace_runs.foldl
    (fun acc pr =>
      let total_m := acc.2.2 + pr.2
      if pr.1 ≤ hard_cut then (acc.1 + pr.2, acc.2.1, total_m)
      else if easy_cut ≤ pr.1 then (acc.1, acc.2.1 + pr.2, total_m)
      else (acc.1, acc.2.1, total_m))
    (0, 0, 0)

/-- `_intensity_split_by_pace` (lines 53-91). -/
def _intensity_split_by_pace (runs : List Run) : IntensitySplit :=
  if runs.isEmpty then ⟨0, 0⟩
  else
    let pace_runs := pace_runs_of runs
    if pace_runs.length < 3 then ⟨70.0, 0.0⟩
    else
      let paces := (pace_runs.map Prod.fst).insertionSort (fun a b => a ≤ b)
      let hard_cut := pct_value paces 0.15
      let easy_cut := pct_value paces 0.60
      let s := splitSums pace_runs hard_cut easy_cut
      if s.2.2 ≤ 0 then ⟨0, 0⟩
      else ⟨pyRound1 (s.2.1 / s.2.2 * 100), pyRound1 (s.1 / s.2.2 * 100)⟩

/-- `total_distance_m` of the retained runs (line 99, also `dist_28_m`). -/
def total_distance_m (runs : List Run) : ℚ :=
  (runs.map Run.distance_m).sum

/-- `dist_7_m` (lines 107-112): distance within the last 7 days of the
latest retained run. -/
def dist_7_m (runs : List Run) : ℚ :=
  match runs.getLast? with
  | Option.none => 0
  | some lastR =>
    ((runs.filter (fun r => lastR.start_time - 7 * 86400 ≤ r.start_time)).map
      Run.distance_m).sum

/-- The metrics mapping produced by `compute_metrics` (typed form; the
key set is fixed, so a structure is the faithful rendering). -/
structure Metrics : Type where
  lookback_days : ℤ
  run_count : ℕ
  total_distance_km : ℚ
  weekly_distance : List ℚ
  weekly_frequency : List ℕ
  acwr : Option ℚ
  longest_run_pct : Option ℚ
  rest_days_last_14 : ℤ
  back_to_back_runs_last_14 : ℕ
  easy_pct : ℚ
  hard_pct : ℚ
deriving DecidableEq

/-- `compute_metrics` from `compute_metrics.py` (lines 93-142). -/
def compute_metrics (runs_all : List Run) (lookback_days : ℤ) : Metrics :=
  let runs := _filter_lookback runs_all lookback_days
  let weekly := _weekly_buckets runs
  let dist_28_m := total_distance_m runs
  let denom := if 0 < dist_28_m then dist_28_m / 4 else 0
  let acwr := if 0 < denom then some (pyRound2 (dist_7_m runs / denom)) else Option.none
  let longest_run_pct :=
    match runs.getLast? with
    | Option.none => Option.none
    | some lastR =>
      if 0 < dist_7_m runs then
        let last7 := runs.filter (fun r => lastR.start_time - 7 * 86400 ≤ r.start_time)
        some (pyRound2 (((last7.map Run.distance_m).max?).getD 0 / dist_7_m runs))
      else Option.none
  let split := _intensity_split_by_pace runs
  ⟨lookback_days, runs.length, pyRound2 (dist_28_m / 1000),
    weekly.map (fun w => pyRound2 (w.2.1 / 1000)),
    weekly.map (fun w => w.2.2),
    acwr, longest_run_pct,
    _count_rest_days_last_14 runs,
    _count_back_to_back_runs_last_14 runs,
    split.easy_pct, split.hard_pct⟩

/-! ### Concrete inputs used by witnesses and counterexamples -/

/-- A metrics mapping with a numeric `acwr < 0.8` and a `weekly_distance`
list of non-numeric strings: the undertraining rule evaluates
`float("abc")` outside any `try`. -/
def mCrash : PyDict :=
  [("acwr", .float 0.5), ("weekly_distance", .list [.str "abc", .str "def"])]

/-- The assessment produced for an empty metrics mapping. -/
def aEmpty : RiskAssessment :=
  ⟨"low", [],
    ["Missing acwr and weekly_distance; cannot assess volume spikes reliably.",
     "Missing acwr or sufficient weekly_distance; undertraining check may be incomplete.",
     "Missing easy_pct; cannot assess easy-running balance.",
     "Missing hard_pct; cannot assess hard-running proportion.",
     "Missing longest_run_pct; cannot assess long-run dominance.",
     "Missing rest_days_last_14 and back_to_back_runs_last_14; cannot assess recovery density."],
    []⟩

/-- The spec's volume-spike scenario weekly distances `[18, 22, 29, 38]`. -/
def lSpike : List Value :=
  [.float 18, .float 22, .float 29, .float 38]

/-- The spec's volume-spike scenario metrics. -/
def mSpike : PyDict :=
  [("acwr", .float 1.62), ("weekly_distance", .list lSpike)]

/-- A metrics mapping triggering exactly
`{volume_spike, insufficient_recovery}`. -/
def mCompound : PyDict :=
  [("acwr", .float 1.62), ("weekly_distance", .list lSpike),
   ("rest_days_last_14", .int 1)]

/-- The assessment produced for `mCompound`. -/
def aCompound : RiskAssessment :=
  ⟨"high", ["insufficient_recovery", "volume_spike"],
    ["Missing easy_pct; cannot assess easy-running balance.",
     "Missing hard_pct; cannot assess hard-running proportion.",
     "Missing longest_run_pct; cannot assess long-run dominance."],
    [("volume_spike",
      "Training volume increased sharply relative to your recent baseline. Sudden spikes elevate short-term injury and fatigue risk."),
     ("insufficient_recovery",
      "Recent training has limited recovery spacing (few rest days and/or frequent back-to-back runs). Insufficient recovery increases fatigue and can make small issues linger into injuries.")]⟩

/-- A single run: day 0, 5 km in 25 minutes. -/
def runA : Run := ⟨0, 5000, 1500, Option.none⟩

/-- Day 1, 6 km in 30 minutes. -/
def runB : Run := ⟨86400, 6000, 1800, Option.none⟩

/-- Day 2, 4 km in 24 minutes. -/
def runC : Run := ⟨172800, 4000, 1440, Option.none⟩

/-! ### Helper lemmas -/

theorem charListLe_total : ∀ x y : List Char,
    charListLe x y = true ∨ charListLe y x = true
  | [], _ => Or.inl rfl
  | _ :: _, [] => Or.inr rfl
  | c :: cs, d :: ds => by
    rcases Nat.lt_trichotomy c.toNat d.toNat with h | h | h
    · left
      simp only [charListLe, Bool.or_eq_true, decide_eq_true_eq]
      exact Or.inl h
    · rcases charListLe_total cs ds with ih | ih
      · left
        simp only [charListLe, Bool.or_eq_true, Bool.and_eq_true, decide_eq_true_eq,
          beq_iff_eq]
        exact Or.inr ⟨h, ih⟩
      · right
        simp only [charListLe, Bool.or_eq_true, Bool.and_eq_true, decide_eq_true_eq,
          beq_iff_eq]
        exact Or.inr ⟨h.symm, ih⟩
    · right
      simp only [charListLe, Bool.or_eq_true, decide_eq_true_eq]
      exact Or.inl h

theorem charListLe_trans : ∀ x y z : List Char,
    charListLe x y = true → charListLe y z = true → charListLe x z = true
  | [], _, _ => fun _ _ => rfl
  | _ :: _, [], _ => by intro h _; simp [charListLe] at h
  | _ :: _, _ :: _, [] => by intro _ h; simp [charListLe] at h
  | c :: cs, d :: ds, e :: es => by
    simp only [charListLe, Bool.or_eq_true, Bool.and_eq_true, decide_eq_true_eq, beq_iff_eq]
    rintro (h1 | ⟨h1e, h1r⟩) (h2 | ⟨h2e, h2r⟩)
    · exact Or.inl (by omega)
    · exact Or.inl (by omega)
    · exact Or.inl (by omega)
    · exact Or.inr ⟨by omega, charListLe_trans cs ds es h1r h2r⟩

theorem pySortedStr_perm (l : List String) : (pySortedStr l).Perm l :=
  List.perm_insertionSort strLeP l

theorem pySortedStr_sorted (l : List String) : (pySortedStr l).Sorted strLeP :=
  @List.sorted_insertionSort String strLeP _
    ⟨fun a b => charListLe_total a.toList b.toList⟩
    ⟨fun a b c h1 h2 => charListLe_trans a.toList b.toList c.toList h1 h2⟩ l

theorem isNum_isinstance {v : Value} (h : isNum v = true) :
    isinstanceB v .tIntFloat = true := by
  cases v <;> simp_all [isNum, isinstanceB]

theorem isNum_not_none {v : Value} (h : isNum v = true) : pyIsNone v = false := by
  cases v <;> simp_all [isNum, pyIsNone]

theorem isNum_pyFloat {v : Value} (h : isNum v = true) :
    pyFloat v = some (numVal v) := by
  cases v <;> simp_all [isNum, pyFloat, numVal]

theorem pyFloatList_isNum {l : List Value} (h : ∀ x ∈ l, isNum x = true) :
    pyFloatList l = some (l.map numVal) := by
  induction l with
  | nil => rfl
  | cons x xs ih =>
    have hx := isNum_pyFloat (h x (by simp))
    have hxs := ih (fun y hy => h y (by simp [hy]))
    simp [pyFloatList, hx, hxs]

theorem pyNegGet_mem {α : Type _} (l : List α) (k : ℕ) (d : α)
    (hk : 1 ≤ k) (hkl : k ≤ l.length) : pyNegGet l k d ∈ l := by
  have hlt : l.length - k < l.length := by omega
  rw [pyNegGet, List.get?_eq_get hlt]
  simp [List.get_mem]

theorem finalize_risk_flags (f lims : List String) (d : List (String × String)) :
    (finalize f lims d).risk_flags = pySortedStr f := rfl

theorem finalize_limitations (f lims : List String) (d : List (String × String)) :
    (finalize f lims d).limitations = pySortedStr lims.dedup := rfl

theorem finalize_flag_details (f lims : List String) (d : List (String × String)) :
    (finalize f lims d).flag_details = d := rfl

theorem finalize_risk_level (f lims : List String) (d : List (String × String)) :
    (finalize f lims d).risk_level =
      if 4 ≤ f.length ∨ ("volume_spike" ∈ f ∧ "insufficient_recovery" ∈ f) then "high"
      else if 2 ≤ f.length then "moderate" else "low" := rfl

theorem evaluate_cases (m : PyDict) (a : RiskAssessment)
    (h : evaluate_risk_flags m = some a) :
    ∃ rB, ruleUndertraining (_get m "acwr" (some .tIntFloat))
        (_get m "weekly_distance" (some .tList)) = some rB ∧
      a = finalize
        ((ruleVolumeSpike (_get m "acwr" (some .tIntFloat))
            (_get m "weekly_distance" (some .tList))).1
          ++ rB.1
          ++ (ruleLongRunDominance (_get m "longest_run_pct" (some .tIntFloat))).1
          ++ (ruleInsufficientEasyRunning (_get m "easy_pct" (some .tIntFloat))).1
          ++ (ruleExcessiveHardRunning (_get m "hard_pct" (some .tIntFloat))).1
          ++ (ruleInsufficientRecovery (_get m "rest_days_last_14" (some .tInt))
              (_get m "back_to_back_runs_last_14" (some .tInt))).1)
        ((ruleVolumeSpike (_get m "acwr" (some .tIntFloat))
            (_get m "weekly_distance" (some .tList))).2.1
          ++ rB.2.1
          ++ (ruleLongRunDominance (_get m "longest_run_pct" (some .tIntFloat))).2.1
          ++ (ruleInsufficientEasyRunning (_get m "easy_pct" (some .tIntFloat))).2.1
          ++ (ruleExcessiveHardRunning (_get m "hard_pct" (some .tIntFloat))).2.1
          ++ (ruleInsufficientRecovery (_get m "rest_days_last_14" (some .tInt))
              (_get m "back_to_back_runs_last_14" (some .tInt))).2.1)
        ((ruleVolumeSpike (_get m "acwr" (some .tIntFloat))
            (_get m "weekly_distance" (some .tList))).2.2
          ++ rB.2.2
          ++ (ruleLongRunDominance (_get m "longest_run_pct" (some .tIntFloat))).2.2
          ++ (ruleInsufficientEasyRunning (_get m "easy_pct" (some .tIntFloat))).2.2
          ++ (ruleExcessiveHardRunning (_get m "hard_pct" (some .tIntFloat))).2.2
          ++ (ruleInsufficientRecovery (_get m "rest_days_last_14" (some .tInt))
              (_get m "back_to_back_runs_last_14" (some .tInt))).2.2) := by
  cases hU : ruleUndertraining (_get m "acwr" (some .tIntFloat))
      (_get m "weekly_distance" (some .tList)) with
  | none =>
    simp only [evaluate_risk_flags, hU] at h
    exact Option.noConfusion h
  | some rB =>
    simp only [evaluate_risk_flags, hU, Option.some.injEq] at h
    exact ⟨rB, rfl, h.symm⟩

theorem ruleVolumeSpike_shape (v w : Value) :
    ((ruleVolumeSpike v w).1 = [] ∨ (ruleVolumeSpike v w).1 = ["volume_spike"]) ∧
      (ruleVolumeSpike v w).2.2.map Prod.fst = (ruleVolumeSpike v w).1 := by
  unfold ruleVolumeSpike
  dsimp only
  repeat' split
  all_goals first
    | exact ⟨Or.inl rfl, rfl⟩
    | exact ⟨Or.inr rfl, rfl⟩

theorem ruleUndertraining_shape (v w : Value)
    (r : List String × List String × List (String × String))
    (h : ruleUndertraining v w = some r) :
    (r.1 = [] ∨ r.1 = ["undertraining"]) ∧ r.2.2.map Prod.fst = r.1 := by
  unfold ruleUndertraining at h
  repeat' split at h
  all_goals cases h
  all_goals first
    | exact ⟨Or.inl rfl, rfl⟩
    | exact ⟨Or.inr rfl, rfl⟩

theorem ruleLongRunDominance_shape (v : Value) :
    ((ruleLongRunDominance v).1 = [] ∨
        (ruleLongRunDominance v).1 = ["long_run_dominance"]) ∧
      (ruleLongRunDominance v).2.2.map Prod.fst = (ruleLongRunDominance v).1 := by
  unfold ruleLongRunDominance
  repeat' split
  all_goals first
    | exact ⟨Or.inl rfl, rfl⟩
    | exact ⟨Or.inr rfl, rfl⟩

theorem ruleInsufficientEasyRunning_shape (v : Value) :
    ((ruleInsufficientEasyRunning v).1 = [] ∨
        (ruleInsufficientEasyRunning v).1 = ["insufficient_easy_running"]) ∧
      (ruleInsufficientEasyRunning v).2.2.map Prod.fst =
        (ruleInsufficientEasyRunning v).1 := by
  unfold ruleInsufficientEasyRunning
  repeat' split
  all_goals first
    | exact ⟨Or.inl rfl, rfl⟩
    | exact ⟨Or.inr rfl, rfl⟩

theorem ruleExcessiveHardRunning_shape (v : Value) :
    ((ruleExcessiveHardRunning v).1 = [] ∨
        (ruleExcessiveHardRunning v).1 = ["excessive_hard_running"]) ∧
      (ruleExcessiveHardRunning v).2.2.map Prod.fst =
        (ruleExcessiveHardRunning v).1 := by
  unfold ruleExcessiveHardRunning
  repeat' split
  all_goals first
    | exact ⟨Or.inl rfl, rfl⟩
    | exact ⟨Or.inr rfl, rfl⟩

theorem ruleInsufficientRecovery_shape (v w : Value) :
    ((ruleInsufficientRecovery v w).1 = [] ∨
        (ruleInsufficientRecovery v w).1 = ["insufficient_recovery"]) ∧
      (ruleInsufficientRecovery v w).2.2.map Prod.fst =
        (ruleInsufficientRecovery v w).1 := by
  unfold ruleInsufficientRecovery
  dsimp only
  repeat' split
  all_goals first
    | exact ⟨Or.inl rfl, rfl⟩
    | exact ⟨Or.inr rfl, rfl⟩

theorem finalize_level_iff (f lims : List String) (d : List (String × String)) :
    ((finalize f lims d).risk_level = "high" ↔
      (4 ≤ (finalize f lims d).risk_flags.length ∨
        ("volume_spike" ∈ (finalize f lims d).risk_flags ∧
          "insufficient_recovery" ∈ (finalize f lims d).risk_flags))) ∧
    ((finalize f lims d).risk_level = "moderate" ↔
      (¬(4 ≤ (finalize f lims d).risk_flags.length ∨
          ("volume_spike" ∈ (finalize f lims d).risk_flags ∧
            "insufficient_recovery" ∈ (finalize f lims d).risk_flags)) ∧
        2 ≤ (finalize f lims d).risk_flags.length)) ∧
    ((finalize f lims d).risk_level = "low" ↔
      (¬(4 ≤ (finalize f lims d).risk_flags.length ∨
          ("volume_spike" ∈ (finalize f lims d).risk_flags ∧
            "insufficient_recovery" ∈ (finalize f lims d).risk_flags)) ∧
        (finalize f lims d).risk_flags.length < 2)) := by
  have hperm : (finalize f lims d).risk_flags.Perm f := by
    rw [finalize_risk_flags]
    exact pySortedStr_perm f
  have hlen : (finalize f lims d).risk_flags.length = f.length := hperm.length_eq
  have hvs : "volume_spike" ∈ (finalize f lims d).risk_flags ↔ "volume_spike" ∈ f :=
    hperm.mem_iff
  have hir : "insufficient_recovery" ∈ (finalize f lims d).risk_flags ↔
      "insufficient_recovery" ∈ f := hperm.mem_iff
  rw [finalize_risk_level, hlen, hvs, hir]
  by_cases hC : 4 ≤ f.length ∨ ("volume_spike" ∈ f ∧ "insufficient_recovery" ∈ f)
  · simp [hC]
  · by_cases h2 : 2 ≤ f.length
    · have h3 : ¬ f.length < 2 := by omega
      simp [hC, h2, h3]
    · have h3 : f.length < 2 := by omega
      simp [hC, h2, h3]

/-! ### Claims -/

/-- C2: the claim says `evaluate_risk_flags` never raises on any dict.
The code contradicts it: with a numeric `acwr < 0.8` and a
`weekly_distance` list containing non-numeric strings, the undertraining
rule evaluates `float("abc")` outside any `try`, and the `ValueError`
propagates — the evaluation has no result. -/
theorem C2_crash_on_invalid_weekly : evaluate_risk_flags mCrash = Option.none := by
  with_unfolding_all rfl

/-- C3 counterexample: the claim includes the empty run sequence among
those yielding the `easy_pct = 70.0, hard_pct = 0.0` defaults, but
`_intensity_split_by_pace` returns `easy_pct = 0.0, hard_pct = 0.0` on
the empty sequence (the `if not runs` branch). -/
theorem C3_counterexample :
    _intensity_split_by_pace [] = ⟨0, 0⟩ ∧
      ((⟨0, 0⟩ : IntensitySplit) ≠ ⟨70.0, 0.0⟩) := by
  refine ⟨by with_unfolding_all rfl, fun h => ?_⟩
  have h0 := congrArg IntensitySplit.easy_pct h
  norm_num at h0

/-- C3 (amended): for every nonempty run sequence in which fewer than 3
runs have positive distance, the intensity split returns the fixed
defaults `easy_pct = 70.0, hard_pct = 0.0`; the empty sequence instead
returns `easy_pct = 0.0, hard_pct = 0.0`. -/
theorem C3_amended_defaults :
    (∀ runs : List Run, runs ≠ [] →
        (runs.filter (fun r => 0 < r.distance_m)).length < 3 →
        _intensity_split_by_pace runs = ⟨70.0, 0.0⟩) ∧
      _intensity_split_by_pace [] = ⟨0, 0⟩ := by
  constructor
  · intro runs hne hfew
    have h1 : runs.isEmpty = false := by
      simp [List.isEmpty_iff, hne]
    have h2 : (pace_runs_of runs).length < 3 := by
      rw [pace_runs_of, List.length_map]
      exact hfew
    simp [_intensity_split_by_pace, h1, h2]
  · with_unfolding_all rfl

/-- C3 witness: a single-run history has fewer than 3 positive-distance
runs and gets the 70/0 defaults. -/
theorem C3_amended_witness :
    ([runA] : List Run) ≠ [] ∧
      (([runA] : List Run).filter (fun r => 0 < r.distance_m)).length < 3 ∧
      _intensity_split_by_pace [runA] = ⟨70.0, 0.0⟩ :=
  ⟨by simp, of_decide_eq_true (by with_unfolding_all rfl),
    C3_amended_defaults.1 [runA] (by simp)
      (of_decide_eq_true (by with_unfolding_all rfl))⟩

/-- C4: on an empty metrics mapping the engine returns risk level `low`,
no flags, and exactly one limitation entry per rule — 6 in total. -/
theorem C4_empty_metrics :
    evaluate_risk_flags [] = some aEmpty ∧
      aEmpty.risk_level = "low" ∧ aEmpty.risk_flags = [] ∧
      aEmpty.limitations.length = 6 :=
  ⟨by with_unfolding_all rfl, rfl, rfl, rfl⟩

/-- C6: the trend helper returns `true` for fewer than 2 points; for
exactly 2 points it is `last ≤ previous`; for 3 or more points it is
`last ≤ average of the two preceding points`; with the claim's four
concrete boundary cases. -/
theorem C6_trend_helper :
    (∀ w : List ℚ,
      (w.length < 2 → _trend_is_flat_or_decreasing w = true) ∧
      (w.length = 2 →
        (_trend_is_flat_or_decreasing w = true ↔
          pyNegGet w 1 0 ≤ pyNegGet w 2 0)) ∧
      (3 ≤ w.length →
        (_trend_is_flat_or_decreasing w = true ↔
          pyNegGet w 1 0 ≤ (pyNegGet w 2 0 + pyNegGet w 3 0) / 2))) ∧
    _trend_is_flat_or_decreasing [5] = true ∧
    _trend_is_flat_or_decreasing [10, 8] = true ∧
    _trend_is_flat_or_decreasing [10, 12] = false ∧
    _trend_is_flat_or_decreasing [10, 12, 10] = true := by
  refine ⟨fun w => ⟨?_, ?_, ?_⟩, ?_, ?_, ?_, ?_⟩
  · intro h
    simp [_trend_is_flat_or_decreasing, h]
  · intro h
    simp [_trend_is_flat_or_decreasing, h]
  · intro h
    have h1 : ¬ w.length < 2 := by omega
    have h2 : ¬ w.length = 2 := by omega
    simp [_trend_is_flat_or_decreasing, h1, h2]
  · with_unfolding_all rfl
  · with_unfolding_all rfl
  · with_unfolding_all rfl
  · with_unfolding_all rfl

/-- C6 witness: the 3-point case applied at `[10, 12, 10]`. -/
theorem C6_trend_witness :
    3 ≤ ([10, 12, 10] : List ℚ).length ∧
      (_trend_is_flat_or_decreasing [10, 12, 10] = true ↔
        pyNegGet ([10, 12, 10] : List ℚ) 1 0 ≤
          (pyNegGet ([10, 12, 10] : List ℚ) 2 0 +
            pyNegGet ([10, 12, 10] : List ℚ) 3 0) / 2) :=
  ⟨by simp, (C6_trend_helper.1 [10, 12, 10]).2.2 (by simp)⟩

/-- C1: whenever the engine returns an assessment, `risk_level` is
`"high"` exactly when at least 4 flags are triggered or both
`volume_spike` and `insufficient_recovery` are; otherwise `"moderate"`
exactly when at least 2 are triggered, and `"low"` otherwise.  In
particular the flag set `{volume_spike, insufficient_recovery}` (size 2)
yields `"high"`. -/
theorem C1_risk_level_thresholds (m : PyDict) (a : RiskAssessment)
    (h : evaluate_risk_flags m = some a) :
    (a.risk_level = "high" ↔
      (4 ≤ a.risk_flags.length ∨
        ("volume_spike" ∈ a.risk_flags ∧ "insufficient_recovery" ∈ a.risk_flags))) ∧
    (a.risk_level = "moderate" ↔
      (¬(4 ≤ a.risk_flags.length ∨
          ("volume_spike" ∈ a.risk_flags ∧ "insufficient_recovery" ∈ a.risk_flags)) ∧
        2 ≤ a.risk_flags.length)) ∧
    (a.risk_level = "low" ↔
      (¬(4 ≤ a.risk_flags.length ∨
          ("volume_spike" ∈ a.risk_flags ∧ "insufficient_recovery" ∈ a.risk_flags)) ∧
        a.risk_flags.length < 2)) := by
  obtain ⟨rB, hU, ha⟩ := evaluate_cases m a h
  subst ha
  exact finalize_level_iff _ _ _

/-- C1 witness: `mCompound` triggers exactly
`{volume_spike, insufficient_recovery}` and is rated `"high"`. -/
theorem C1_witness :
    evaluate_risk_flags mCompound = some aCompound ∧
      aCompound.risk_flags = ["insufficient_recovery", "volume_spike"] ∧
      aCompound.risk_level = "high" ∧
      (aCompound.risk_level = "high" ↔
        (4 ≤ aCompound.risk_flags.length ∨
          ("volume_spike" ∈ aCompound.risk_flags ∧
            "insufficient_recovery" ∈ aCompound.risk_flags))) :=
  ⟨by with_unfolding_all rfl, rfl, rfl,
    (C1_risk_level_thresholds mCompound aCompound (by with_unfolding_all rfl)).1⟩

/-- C8: in every returned assessment, the keys of `flag_details` are
exactly the triggered flags — as sets — and each flag has exactly one
entry (the key list has no duplicates). -/
theorem C8_flag_details_keys (m : PyDict) (a : RiskAssessment)
    (h : evaluate_risk_flags m = some a) :
    (a.flag_details.map Prod.fst).toFinset = a.risk_flags.toFinset ∧
      (a.flag_details.map Prod.fst).Nodup := by
  obtain ⟨rB, hU, ha⟩ := evaluate_cases m a h
  subst ha
  constructor
  · rw [finalize_flag_details, finalize_risk_flags]
    simp only [List.map_append]
    rw [(ruleVolumeSpike_shape _ _).2, (ruleUndertraining_shape _ _ rB hU).2,
      (ruleLongRunDominance_shape _).2, (ruleInsufficientEasyRunning_shape _).2,
      (ruleExcessiveHardRunning_shape _).2, (ruleInsufficientRecovery_shape _ _).2]
    exact (List.toFinset_eq_of_perm _ _ (pySortedStr_perm _)).symm
  · rw [finalize_flag_details]
    simp only [List.map_append]
    rw [(ruleVolumeSpike_shape _ _).2, (ruleUndertraining_shape _ _ rB hU).2,
      (ruleLongRunDominance_shape _).2, (ruleInsufficientEasyRunning_shape _).2,
      (ruleExcessiveHardRunning_shape _).2, (ruleInsufficientRecovery_shape _ _).2]
    rcases (ruleVolumeSpike_shape (_get m "acwr" (some .tIntFloat))
        (_get m "weekly_distance" (some .tList))).1 with hA | hA <;>
      rcases (ruleUndertraining_shape _ _ rB hU).1 with hB | hB <;>
      rcases (ruleLongRunDominance_shape
        (_get m "longest_run_pct" (some .tIntFloat))).1 with hC | hC <;>
      rcases (ruleInsufficientEasyRunning_shape
        (_get m "easy_pct" (some .tIntFloat))).1 with hD | hD <;>
      rcases (ruleExcessiveHardRunning_shape
        (_get m "hard_pct" (some .tIntFloat))).1 with hE | hE <;>
      rcases (ruleInsufficientRecovery_shape (_get m "rest_days_last_14" (some .tInt))
        (_get m "back_to_back_runs_last_14" (some .tInt))).1 with hF | hF <;>
      rw [hA, hB, hC, hD, hE, hF] <;> decide

/-- C8 witness: the key-set invariant at `mCompound`. -/
theorem C8_witness :
    (aCompound.flag_details.map Prod.fst).toFinset = aCompound.risk_flags.toFinset ∧
      (aCompound.flag_details.map Prod.fst).Nodup :=
  C8_flag_details_keys mCompound aCompound (by with_unfolding_all rfl)

/-- C9: evaluation is a pure function of the input mapping — repeated
evaluation gives the same value — and every returned assessment has its
flags sorted, and its limitations sorted and deduplicated, so equal
inputs produce identical output values. -/
theorem C9_determinism (m : PyDict) :
    evaluate_risk_flags m = evaluate_risk_flags m ∧
      ∀ a, evaluate_risk_flags m = some a →
        a.risk_flags.Sorted strLeP ∧
          a.limitations.Sorted strLeP ∧ a.limitations.Nodup := by
  refine ⟨rfl, fun a h => ?_⟩
  obtain ⟨rB, hU, ha⟩ := evaluate_cases m a h
  subst ha
  refine ⟨?_, ?_, ?_⟩
  · rw [finalize_risk_flags]
    exact pySortedStr_sorted _
  · rw [finalize_limitations]
    exact pySortedStr_sorted _
  · rw [finalize_limitations]
    exact ((pySortedStr_perm _).nodup_iff).mpr (List.nodup_dedup _)

/-- C9 witness: the sortedness and dedup facts at the empty mapping. -/
theorem C9_witness :
    aEmpty.risk_flags.Sorted strLeP ∧
      aEmpty.limitations.Sorted strLeP ∧ aEmpty.limitations.Nodup :=
  (C9_determinism []).2 aEmpty (by with_unfolding_all rfl)

/-- C7: the aggregator's `acwr` is `round(dist_7 / (dist_28 / 4), 2)`
when the total retained distance is positive, and absent (`None`, never
`0`) when it is zero. -/
theorem C7_acwr_none_on_zero (runs_all : List Run) (lookback_days : ℤ) :
    (0 < total_distance_m (_filter_lookback runs_all lookback_days) →
      (compute_metrics runs_all lookback_days).acwr =
        some (pyRound2 (dist_7_m (_filter_lookback runs_all lookback_days) /
          (total_distance_m (_filter_lookback runs_all lookback_days) / 4)))) ∧
    (total_distance_m (_filter_lookback runs_all lookback_days) = 0 →
      (compute_metrics runs_all lookback_days).acwr = Option.none) := by
  have hrfl : (compute_metrics runs_all lookback_days).acwr =
      (if 0 < (if 0 < total_distance_m (_filter_lookback runs_all lookback_days) then
          total_distance_m (_filter_lookback runs_all lookback_days) / 4 else 0) then
        some (pyRound2 (dist_7_m (_filter_lookback runs_all lookback_days) /
          (if 0 < total_distance_m (_filter_lookback runs_all lookback_days) then
            total_distance_m (_filter_lookback runs_all lookback_days) / 4 else 0)))
      else Option.none) := rfl
  constructor
  · intro hpos
    have h4 : (0 : ℚ) < total_distance_m (_filter_lookback runs_all lookback_days) / 4 := by
      positivity
    rw [hrfl, if_pos hpos, if_pos h4]
  · intro hzero
    rw [hrfl, hzero]
    norm_num

/-- C7 witness: a one-run history has a positive total and gets the
rounded ratio; the empty history has a zero total and gets `None`. -/
theorem C7_witness :
    (0 < total_distance_m (_filter_lookback [runA] 28) ∧
      (compute_metrics [runA] 28).acwr =
        some (pyRound2 (dist_7_m (_filter_lookback [runA] 28) /
          (total_distance_m (_filter_lookback [runA] 28) / 4)))) ∧
    (total_distance_m (_filter_lookback [] 28) = 0 ∧
      (compute_metrics [] 28).acwr = Option.none) :=
  ⟨⟨of_decide_eq_true (by with_unfolding_all rfl),
    (C7_acwr_none_on_zero [runA] 28).1 (of_decide_eq_true (by with_unfolding_all rfl))⟩,
   ⟨by with_unfolding_all rfl,
    (C7_acwr_none_on_zero [] 28).2 (by with_unfolding_all rfl)⟩⟩

theorem splitSums_le (l : List (ℚ × ℚ)) (hc ec : ℚ)
    (hpos : ∀ p ∈ l, 0 ≤ p.2) :
    (splitSums l hc ec).1 + (splitSums l hc ec).2.1 ≤ (splitSums l hc ec).2.2 := by
  have h : ∀ (l' : List (ℚ × ℚ)) (acc : ℚ × ℚ × ℚ), (∀ p ∈ l', 0 ≤ p.2) →
      acc.1 + acc.2.1 ≤ acc.2.2 →
      ((l'.foldl
        (fun acc pr =>
          let total_m := acc.2.2 + pr.2
          if pr.1 ≤ hc then (acc.1 + pr.2, acc.2.1, total_m)
          else if ec ≤ pr.1 then (acc.1, acc.2.1 + pr.2, total_m)
          else (acc.1, acc.2.1, total_m)) acc).1 +
        (l'.foldl
          (fun acc pr =>
            let total_m := acc.2.2 + pr.2
            if pr.1 ≤ hc then (acc.1 + pr.2, acc.2.1, total_m)
            else if ec ≤ pr.1 then (acc.1, acc.2.1 + pr.2, total_m)
            else (acc.1, acc.2.1, total_m)) acc).2.1 ≤
        (l'.foldl
          (fun acc pr =>
            let total_m := acc.2.2 + pr.2
            if pr.1 ≤ hc then (acc.1 + pr.2, acc.2.1, total_m)
            else if ec ≤ pr.1 then (acc.1, acc.2.1 + pr.2, total_m)
            else (acc.1, acc.2.1, total_m)) acc).2.2) := by
    intro l'
    induction l' with
    | nil => intro acc _ hacc; exact hacc
    | cons p ps ih =>
      intro acc hl hacc
      rw [List.foldl_cons]
      refine ih _ (fun q hq => hl q (List.mem_cons_of_mem _ hq)) ?_
      have hp : 0 ≤ p.2 := hl p (List.mem_cons_self _ _)
      dsimp only
      split
      · dsimp only
        linarith
      · split
        · dsimp only
          linarith
        · dsimp only
          linarith
  exact h l (0, 0, 0) hpos (by norm_num)

/-- C10: every eligible (positive-distance) run of the intensity split is
counted in at most one bucket — at the cut it is hard only, even when the
cuts coincide — so `easy_m + hard_m ≤ total_m` and the unrounded easy and
hard percentages sum to at most 100. -/
theorem C10_intensity_buckets (runs : List Run) (hard_cut easy_cut : ℚ) :
    ((splitSums (pace_runs_of runs) hard_cut easy_cut).1 +
        (splitSums (pace_runs_of runs) hard_cut easy_cut).2.1 ≤
      (splitSums (pace_runs_of runs) hard_cut easy_cut).2.2) ∧
    (0 < (splitSums (pace_runs_of runs) hard_cut easy_cut).2.2 →
      (splitSums (pace_runs_of runs) hard_cut easy_cut).2.1 /
          (splitSums (pace_runs_of runs) hard_cut easy_cut).2.2 * 100 +
        (splitSums (pace_runs_of runs) hard_cut easy_cut).1 /
          (splitSums (pace_runs_of runs) hard_cut easy_cut).2.2 * 100 ≤ 100) ∧
    (∀ c dm : ℚ, splitSums [(c, dm)] c c = (dm, 0, dm)) := by
  have hpos : ∀ p ∈ pace_runs_of runs, 0 ≤ p.2 := by
    intro p hp
    rw [pace_runs_of] at hp
    obtain ⟨r, hr, rfl⟩ := List.mem_map.1 hp
    have hd := List.of_mem_filter hr
    simp only [decide_eq_true_eq] at hd
    exact le_of_lt hd
  have hle := splitSums_le (pace_runs_of runs) hard_cut easy_cut hpos
  refine ⟨hle, ?_, ?_⟩
  · intro ht
    have hsum : (splitSums (pace_runs_of runs) hard_cut easy_cut).2.1 /
          (splitSums (pace_runs_of runs) hard_cut easy_cut).2.2 * 100 +
        (splitSums (pace_runs_of runs) hard_cut easy_cut).1 /
          (splitSums (pace_runs_of runs) hard_cut easy_cut).2.2 * 100 =
        ((splitSums (pace_runs_of runs) hard_cut easy_cut).1 +
          (splitSums (pace_runs_of runs) hard_cut easy_cut).2.1) /
          (splitSums (pace_runs_of runs) hard_cut easy_cut).2.2 * 100 := by
      ring
    rw [hsum]
    have h1 : ((splitSums (pace_runs_of runs) hard_cut easy_cut).1 +
        (splitSums (pace_runs_of runs) hard_cut easy_cut).2.1) /
        (splitSums (pace_runs_of runs) hard_cut easy_cut).2.2 ≤ 1 := by
      rw [div_le_one ht]
      exact hle
    calc ((splitSums (pace_runs_of runs) hard_cut easy_cut).1 +
          (splitSums (pace_runs_of runs) hard_cut easy_cut).2.1) /
          (splitSums (pace_runs_of runs) hard_cut easy_cut).2.2 * 100 ≤ 1 * 100 :=
        mul_le_mul_of_nonneg_right h1 (by norm_num)
      _ = 100 := by norm_num
  · intro c dm
    simp [splitSums]

theorem _get_lookup (m : PyDict) (k : String) (v : Value) (t : PyType)
    (h : dictLookup m k = some v) (hi : isinstanceB v t = true) :
    _get m k (some t) = v := by
  unfold _get
  rw [h]
  simp [hi]

theorem ruleVolumeSpike_mem_iff (v : Value) (l : List Value)
    (hnum : isNum v = true) (hlen : 2 ≤ l.length)
    (hels : ∀ x ∈ l, isNum x = true) :
    ("volume_spike" ∈ (ruleVolumeSpike v (.list l)).1 ↔
      ((1.5 : ℚ) ≤ numVal v ∨
        (0 < numVal (pyNegGet l 2 Value.none) ∧
          (1.25 : ℚ) * numVal (pyNegGet l 2 Value.none) ≤
            numVal (pyNegGet l 1 Value.none)))) := by
  have hm1 : pyNegGet l 1 Value.none ∈ l := pyNegGet_mem l 1 _ (by omega) (by omega)
  have hm2 : pyNegGet l 2 Value.none ∈ l := pyNegGet_mem l 2 _ (by omega) hlen
  have h0 : pyIsNone v = false := isNum_not_none hnum
  unfold ruleVolumeSpike
  simp only [h0, Bool.false_and, Bool.false_eq_true, if_false]
  rw [if_pos hlen, isNum_pyFloat (hels _ hm1), isNum_pyFloat (hels _ hm2)]
  rw [isNum_isinstance hnum]
  simp only [Bool.true_and]
  split
  · rename_i hcond
    refine iff_of_true (by simp) ?_
    simpa only [Bool.or_eq_true, decide_eq_true_eq] using hcond
  · rename_i hcond
    refine iff_of_false (by simp) ?_
    simpa only [Bool.or_eq_true, decide_eq_true_eq, not_or] using hcond

/-- C5: whenever `acwr` is numeric and `weekly_distance` is a list of at
least 2 numbers, the evaluation succeeds and `volume_spike` is triggered
iff `acwr >= 1.5` or the last weekly value is at least `1.25` times a
positive previous value. -/
theorem C5_volume_spike_iff (m : PyDict) (v : Value) (l : List Value)
    (hv : dictLookup m "acwr" = some v) (hnum : isNum v = true)
    (hw : dictLookup m "weekly_distance" = some (.list l))
    (hlen : 2 ≤ l.length) (hels : ∀ x ∈ l, isNum x = true) :
    ∃ a, evaluate_risk_flags m = some a ∧
      ("volume_spike" ∈ a.risk_flags ↔
        ((1.5 : ℚ) ≤ numVal v ∨
          (0 < numVal (pyNegGet l 2 Value.none) ∧
            (1.25 : ℚ) * numVal (pyNegGet l 2 Value.none) ≤
              numVal (pyNegGet l 1 Value.none)))) := by
  have hA : _get m "acwr" (some .tIntFloat) = v :=
    _get_lookup m _ v _ hv (isNum_isinstance hnum)
  have hW : _get m "weekly_distance" (some .tList) = .list l :=
    _get_lookup m _ _ _ hw rfl
  have h0 : pyIsNone v = false := isNum_not_none hnum
  obtain ⟨rB, hU⟩ : ∃ rB, ruleUndertraining v (.list l) = some rB := by
    unfold ruleUndertraining
    have hc : (pyIsNone v || decide (l.length < 2)) = false := by
      rw [h0]
      simp only [Bool.false_or, decide_eq_false_iff_not]
      omega
    simp only [hc, Bool.false_eq_true, if_false]
    split
    · rw [pyFloatList_isNum hels]
      dsimp only
      split
      · exact ⟨_, rfl⟩
      · exact ⟨_, rfl⟩
    · exact ⟨_, rfl⟩
  have heval : evaluate_risk_flags m = some (finalize
      ((ruleVolumeSpike v (.list l)).1
        ++ rB.1
        ++ (ruleLongRunDominance (_get m "longest_run_pct" (some .tIntFloat))).1
        ++ (ruleInsufficientEasyRunning (_get m "easy_pct" (some .tIntFloat))).1
        ++ (ruleExcessiveHardRunning (_get m "hard_pct" (some .tIntFloat))).1
        ++ (ruleInsufficientRecovery (_get m "rest_days_last_14" (some .tInt))
            (_get m "back_to_back_runs_last_14" (some .tInt))).1)
      ((ruleVolumeSpike v (.list l)).2.1
        ++ rB.2.1
        ++ (ruleLongRunDominance (_get m "longest_run_pct" (some .tIntFloat))).2.1
        ++ (ruleInsufficientEasyRunning (_get m "easy_pct" (some .tIntFloat))).2.1
        ++ (ruleExcessiveHardRunning (_get m "hard_pct" (some .tIntFloat))).2.1
        ++ (ruleInsufficientRecovery (_get m "rest_days_last_14" (some .tInt))
            (_get m "back_to_back_runs_last_14" (some .tInt))).2.1)
      ((ruleVolumeSpike v (.list l)).2.2
        ++ rB.2.2
        ++ (ruleLongRunDominance (_get m "longest_run_pct" (some .tIntFloat))).2.2
        ++ (ruleInsufficientEasyRunning (_get m "easy_pct" (some .tIntFloat))).2.2
        ++ (ruleExcessiveHardRunning (_get m "hard_pct" (some .tIntFloat))).2.2
        ++ (ruleInsufficientRecovery (_get m "rest_days_last_14" (some .tInt))
            (_get m "back_to_back_runs_last_14" (some .tInt))).2.2)) := by
    simp only [evaluate_risk_flags, hA, hW, hU]
  refine ⟨_, heval, ?_⟩
  rw [finalize_risk_flags, (pySortedStr_perm _).mem_iff]
  simp only [List.mem_append]
  have hnotB : "volume_spike" ∉ rB.1 := by
    rcases (ruleUndertraining_shape _ _ rB hU).1 with hB | hB <;> rw [hB] <;> decide
  have hnotC : "volume_spike" ∉
      (ruleLongRunDominance (_get m "longest_run_pct" (some .tIntFloat))).1 := by
    rcases (ruleLongRunDominance_shape
      (_get m "longest_run_pct" (some .tIntFloat))).1 with hC | hC <;>
      rw [hC] <;> decide
  have hnotD : "volume_spike" ∉
      (ruleInsufficientEasyRunning (_get m "easy_pct" (some .tIntFloat))).1 := by
    rcases (ruleInsufficientEasyRunning_shape
      (_get m "easy_pct" (some .tIntFloat))).1 with hD | hD <;>
      rw [hD] <;> decide
  have hnotE : "volume_spike" ∉
      (ruleExcessiveHardRunning (_get m "hard_pct" (some .tIntFloat))).1 := by
    rcases (ruleExcessiveHardRunning_shape
      (_get m "hard_pct" (some .tIntFloat))).1 with hE | hE <;>
      rw [hE] <;> decide
  have hnotF : "volume_spike" ∉
      (ruleInsufficientRecovery (_get m "rest_days_last_14" (some .tInt))
        (_get m "back_to_back_runs_last_14" (some .tInt))).1 := by
    rcases (ruleInsufficientRecovery_shape (_get m "rest_days_last_14" (some .tInt))
      (_get m "back_to_back_runs_last_14" (some .tInt))).1 with hF | hF <;>
      rw [hF] <;> decide
  simp only [hnotB, hnotC, hnotD, hnotE, hnotF, or_false]
  exact ruleVolumeSpike_mem_iff v l hnum hlen hels

/-- C5 witness: the spec's scenario `acwr = 1.62`,
`weekly_distance = [18, 22, 29, 38]` triggers `volume_spike`. -/
theorem C5_witness :
    ∃ a, evaluate_risk_flags mSpike = some a ∧ "volume_spike" ∈ a.risk_flags := by
  obtain ⟨a, ha, hiff⟩ := C5_volume_spike_iff mSpike (.float 1.62) lSpike
    (by with_unfolding_all rfl) rfl (by with_unfolding_all rfl)
    (by decide) (by decide)
  exact ⟨a, ha, hiff.mpr (Or.inl (of_decide_eq_true (by with_unfolding_all rfl)))⟩

/-- C10 witness: three concrete runs with coinciding cuts. -/
theorem C10_witness :
    0 < (splitSums (pace_runs_of [runA, runB, runC]) 300 300).2.2 ∧
      (splitSums (pace_runs_of [runA, runB, runC]) 300 300).2.1 /
          (splitSums (pace_runs_of [runA, runB, runC]) 300 300).2.2 * 100 +
        (splitSums (pace_runs_of [runA, runB, runC]) 300 300).1 /
          (splitSums (pace_runs_of [runA, runB, runC]) 300 300).2.2 * 100 ≤ 100 :=
  ⟨of_decide_eq_true (by with_unfolding_all rfl),
    (C10_intensity_buckets [runA, runB, runC] 300 300).2.1
      (of_decide_eq_true (by with_unfolding_all rfl))⟩

end FitnessAI
